import Mathlib

/-!
Shallow embedding of swagger-rs src/request_parser.rs.

The source module defines a trait RequestParser with a single function
parse_operation_id(&Request) -> Result<&'static str, ()>, and a pair of
declarative macros, request_parser_joiner and __impl_request_parser_joiner,
that compose an ordered, nonempty list of RequestParser implementations into
one: the request is tested against the constituents in declared order, the
first Ok short-circuits, and exhaustion yields Err(()).

Here a request parser is embedded as a function from requests to
Except Unit String (Err(()) becomes Except.error (), Ok(s) becomes
Except.ok s), and the macro expansion over a nonempty type list becomes a
recursion over a head parser plus a list of tail parsers.
-/

/-- HTTP method of a hyper Request. The core and the test fixtures never
branch on it; the tests construct requests with Method::Get. -/
inductive Method where
  | get
  | post
  | put
  | delete
  deriving DecidableEq, Repr

/-- A hyper Uri. The request parsers in the source only ever inspect the
path component (request.uri().path()). -/
structure Uri where
  path : String
  deriving DecidableEq, Repr

/-- A hyper Request: method plus URI. Headers and body are never inspected
by the core, so they are omitted from the embedding. -/
structure Request where
  method : Method
  uri : Uri
  deriving DecidableEq, Repr

/-- The RequestParser capability: parse_operation_id takes a request by
shared reference and returns Result of a static string or the unit error. -/
abbrev RequestParser : Type := Request → Except Unit String

/-- The __impl_request_parser_joiner macro. Base case (a single parser):
return that parser's result on the request unchanged. Recursive case: invoke
the head parser; on Ok(s) return Ok(s) immediately, on Err(_) recurse on
the remaining parsers. The macro requires at least one parser, embedded
here as an explicit head plus a list of tail parsers. -/
def __impl_request_parser_joiner (request : Request) :
    RequestParser → List RequestParser → Except Unit String
  | head, [] => head request
  | head, t :: ts =>
    match head request with
    | .ok s => .ok s
    | .error _ => __impl_request_parser_joiner request t ts

/-- The request_parser_joiner macro: from an ordered, nonempty list of
parsers it defines a struct whose parse_operation_id delegates to
__impl_request_parser_joiner on the same ordered list. -/
def request_parser_joiner (head : RequestParser) (tail : List RequestParser) :
    RequestParser :=
  fun request => __impl_request_parser_joiner request head tail

/-- Reference procedure, written from the spec wording (not from the
source): evaluate the matchers in declared order, return the first success,
or the no-match signal when the list is exhausted. -/
def firstSuccess (ms : List RequestParser) (r : Request) : Except Unit String :=
  match ms with
  | [] => .error ()
  | m :: rest =>
    match m r with
    | .ok s => .ok s
    | .error _ => firstSuccess rest r

/-- Instrumented evaluation: the same traversal as
__impl_request_parser_joiner, additionally counting how many constituent
parsers were invoked during the call. -/
def joinerInstrumented (request : Request) :
    RequestParser → List RequestParser → Except Unit String × Nat
  | head, [] => (head request, 1)
  | head, t :: ts =>
    match head request with
    | .ok s => (.ok s, 1)
    | .error _ =>
      let p := joinerInstrumented request t ts
      (p.1, p.2 + 1)

/-- Test fixture TestParser1 from the source: maps path /test/t11 to t11
and /test/t12 to t12, declining every other request. -/
def TestParser1 : RequestParser := fun request =>
  match request.uri.path with
  | "/test/t11" => .ok "t11"
  | "/test/t12" => .ok "t12"
  | _ => .error ()

/-- Test fixture TestParser2 from the source: maps path /test/t21 to t21
and /test/t22 to t22, declining every other request. -/
def TestParser2 : RequestParser := fun request =>
  match request.uri.path with
  | "/test/t21" => .ok "t21"
  | "/test/t22" => .ok "t22"
  | _ => .error ()

/-- The composed parser from the test: request_parser_joiner applied to
TestParser1 then TestParser2, in that order. -/
def JoinedReqParser : RequestParser :=
  request_parser_joiner TestParser1 [TestParser2]

/-- The first test request: a GET for path /test/t11. -/
def req11 : Request := { method := .get, uri := { path := "/test/t11" } }

/-- The second test request: a GET for path /test/t22. -/
def req22 : Request := { method := .get, uri := { path := "/test/t22" } }

/-- The third test request: a GET for path /test/t33. -/
def req33 : Request := { method := .get, uri := { path := "/test/t33" } }

/-- A parser that accepts every request with identifier opA, used to build
concrete instances where two parsers match the same request. -/
def AlwaysA : RequestParser := fun _ => .ok "opA"

/-- A parser that accepts every request with identifier opB. -/
def AlwaysB : RequestParser := fun _ => .ok "opB"

theorem impl_eq_firstSuccess (r : Request) (head : RequestParser)
    (tail : List RequestParser) :
    __impl_request_parser_joiner r head tail = firstSuccess (head :: tail) r := by
  induction tail generalizing head with
  | nil =>
    simp only [__impl_request_parser_joiner, firstSuccess]
    cases head r <;> rfl
  | cons t ts ih =>
    simp only [__impl_request_parser_joiner, firstSuccess]
    cases head r with
    | ok s => rfl
    | error e => exact ih t

theorem firstSuccess_all_error (ms : List RequestParser) (r : Request)
    (hall : ∀ m ∈ ms, m r = Except.error ()) :
    firstSuccess ms r = Except.error () := by
  induction ms with
  | nil => rfl
  | cons m rest ih =>
    have hm : m r = Except.error () := hall m (List.mem_cons_self m rest)
    simp only [firstSuccess, hm]
    exact ih fun x hx => hall x (List.mem_cons_of_mem m hx)

theorem firstSuccess_take_invariant (i : Nat) (ms1 ms2 : List RequestParser)
    (r : Request) (s : String)
    (hpre : ms1.take (i + 1) = ms2.take (i + 1))
    (hlen : i < ms1.length)
    (hsucc : ms1.get ⟨i, hlen⟩ r = Except.ok s) :
    firstSuccess ms1 r = firstSuccess ms2 r := by
  induction i generalizing ms1 ms2 with
  | zero =>
    cases ms1 with
    | nil => exact absurd hlen (by simp)
    | cons m1 rest1 =>
      cases ms2 with
      | nil => simp at hpre
      | cons m2 rest2 =>
        simp only [List.take, List.take_zero] at hpre
        injection hpre with hm _
        subst hm
        simp only [List.get] at hsucc
        simp only [firstSuccess, hsucc]
  | succ i ih =>
    cases ms1 with
    | nil => exact absurd hlen (by simp)
    | cons m1 rest1 =>
      cases ms2 with
      | nil => simp at hpre
      | cons m2 rest2 =>
        simp only [List.take] at hpre
        injection hpre with hm hrest
        subst hm
        have hlen1 : i < rest1.length := Nat.lt_of_succ_lt_succ hlen
        simp only [List.get] at hsucc
        simp only [firstSuccess]
        cases m1 r with
        | ok t => rfl
        | error e => exact ih rest1 rest2 hrest hlen1 hsucc

theorem firstSuccess_mem_of_ok (ms : List RequestParser) (r : Request)
    (s : String) (hok : firstSuccess ms r = Except.ok s) :
    ∃ m ∈ ms, m r = Except.ok s := by
  induction ms with
  | nil => exact absurd hok (by simp [firstSuccess])
  | cons m rest ih =>
    simp only [firstSuccess] at hok
    cases hm : m r with
    | ok t =>
      rw [hm] at hok
      exact ⟨m, List.mem_cons_self m rest, hm.trans hok⟩
    | error e =>
      rw [hm] at hok
      obtain ⟨m2, hmem, hm2⟩ := ih hok
      exact ⟨m2, List.mem_cons_of_mem m hmem, hm2⟩

theorem joinerInstrumented_result (r : Request) (head : RequestParser)
    (tail : List RequestParser) :
    (joinerInstrumented r head tail).1 = __impl_request_parser_joiner r head tail := by
  induction tail generalizing head with
  | nil => rfl
  | cons t ts ih =>
    simp only [joinerInstrumented, __impl_request_parser_joiner]
    cases head r with
    | ok s => rfl
    | error e => exact ih t

theorem joinerInstrumented_count (r : Request) (head : RequestParser)
    (tail : List RequestParser) :
    (joinerInstrumented r head tail).2 ≤ (head :: tail).length := by
  induction tail generalizing head with
  | nil => simp [joinerInstrumented]
  | cons t ts ih =>
    simp only [joinerInstrumented]
    cases head r with
    | ok s => simp
    | error e =>
      simp only [List.length_cons]
      exact Nat.succ_le_succ (ih t)

/-- C1: for every ordered list of matchers (a head plus tail, so n at least
one) and every request, the composed matcher built by request_parser_joiner
returns exactly what the reference procedure returns: the constituents are
evaluated in declared order, the first success is returned, and exhaustion
yields no-match. -/
theorem request_parser_joiner_eq_firstSuccess (head : RequestParser)
    (tail : List RequestParser) (r : Request) :
    request_parser_joiner head tail r = firstSuccess (head :: tail) r :=
  impl_eq_firstSuccess r head tail

/-- C2: short-circuit as a two-run statement. If the constituent at
position i succeeds on the request, then replacing every constituent after
position i by arbitrary other matchers (the two lists agree on their first
i plus one entries) leaves the composed result unchanged: constituents
after the first success never influence the outcome. -/
theorem request_parser_joiner_short_circuit (h1 h2 : RequestParser)
    (t1 t2 : List RequestParser) (r : Request) (i : Nat) (s : String)
    (hpre : (h1 :: t1).take (i + 1) = (h2 :: t2).take (i + 1))
    (hlen : i < (h1 :: t1).length)
    (hsucc : (h1 :: t1).get ⟨i, hlen⟩ r = Except.ok s) :
    request_parser_joiner h1 t1 r = request_parser_joiner h2 t2 r := by
  show __impl_request_parser_joiner r h1 t1 = __impl_request_parser_joiner r h2 t2
  rw [impl_eq_firstSuccess r h1 t1, impl_eq_firstSuccess r h2 t2]
  exact firstSuccess_take_invariant i (h1 :: t1) (h2 :: t2) r s hpre hlen hsucc

/-- C2 witness: TestParser2 sits at position 1 and succeeds on the request
for path /test/t22, so changing the suffix after it does not change the
composed result. -/
theorem request_parser_joiner_short_circuit_witness :
    request_parser_joiner TestParser1 [TestParser2, TestParser1] req22 =
      request_parser_joiner TestParser1 [TestParser2] req22 :=
  request_parser_joiner_short_circuit TestParser1 TestParser1
    [TestParser2, TestParser1] [TestParser2] req22 1 "t22" rfl
    (by decide) rfl

/-- C3: if every constituent returns no-match on the request, the composed
matcher returns exactly the unit no-match error; the composer produces no
other error value. -/
theorem request_parser_joiner_total_no_match (head : RequestParser)
    (tail : List RequestParser) (r : Request)
    (hall : ∀ m ∈ head :: tail, m r = Except.error ()) :
    request_parser_joiner head tail r = Except.error () := by
  show __impl_request_parser_joiner r head tail = Except.error ()
  rw [impl_eq_firstSuccess r head tail]
  exact firstSuccess_all_error (head :: tail) r hall

/-- C3 witness: both test parsers decline the request for path /test/t33,
and the composed parser returns the unit no-match error there. -/
theorem request_parser_joiner_total_no_match_witness :
    request_parser_joiner TestParser1 [TestParser2] req33 = Except.error () :=
  request_parser_joiner_total_no_match TestParser1 [TestParser2] req33
    (by
      intro m hm
      simp only [List.mem_cons, List.mem_singleton] at hm
      rcases hm with rfl | rfl | hm
      · rfl
      · rfl
      · exact absurd hm (List.not_mem_nil m))

/-- C4: when two matchers both succeed on the same request, composition in
order m1 then m2 returns the first identifier and composition in order m2
then m1 returns the second identifier; order, not content, decides, so
composition is not commutative in general. -/
theorem request_parser_joiner_precedence (m1 m2 : RequestParser)
    (r : Request) (s1 s2 : String)
    (h1 : m1 r = Except.ok s1) (h2 : m2 r = Except.ok s2) :
    request_parser_joiner m1 [m2] r = Except.ok s1 ∧
      request_parser_joiner m2 [m1] r = Except.ok s2 := by
  constructor
  · show __impl_request_parser_joiner r m1 [m2] = Except.ok s1
    simp only [__impl_request_parser_joiner, h1]
  · show __impl_request_parser_joiner r m2 [m1] = Except.ok s2
    simp only [__impl_request_parser_joiner, h2]

/-- C4 witness: AlwaysA and AlwaysB both succeed on the request for path
/test/t11 with the distinct identifiers opA and opB, and each ordering of
the composition returns the identifier of its first constituent. -/
theorem request_parser_joiner_precedence_witness :
    request_parser_joiner AlwaysA [AlwaysB] req11 = Except.ok "opA" ∧
      request_parser_joiner AlwaysB [AlwaysA] req11 = Except.ok "opB" :=
  request_parser_joiner_precedence AlwaysA AlwaysB req11 "opA" "opB" rfl rfl

/-- C5: the concrete scenario of the test: TestParser1 and TestParser2
composed in that order map the request for path /test/t11 to Ok t11, the
request for path /test/t22 to Ok t22, and the request for path /test/t33
to the no-match error. -/
theorem test_macros_scenario :
    JoinedReqParser req11 = Except.ok "t11" ∧
      JoinedReqParser req22 = Except.ok "t22" ∧
      JoinedReqParser req33 = Except.error () :=
  ⟨rfl, rfl, rfl⟩

/-- C6: determinism. The composed matcher is a pure function of the
constituent list and the request: two invocations on equal constituent
lists and equal requests return identical outcomes. -/
theorem request_parser_joiner_deterministic (h1 h2 : RequestParser)
    (t1 t2 : List RequestParser) (r1 r2 : Request)
    (hh : h1 = h2) (ht : t1 = t2) (hr : r1 = r2) :
    request_parser_joiner h1 t1 r1 = request_parser_joiner h2 t2 r2 := by
  subst hh; subst ht; subst hr; rfl

/-- C6 witness: two invocations of the composed test parser on the request
for path /test/t11 agree. -/
theorem request_parser_joiner_deterministic_witness :
    request_parser_joiner TestParser1 [TestParser2] req11 =
      request_parser_joiner TestParser1 [TestParser2] req11 :=
  request_parser_joiner_deterministic TestParser1 TestParser1 [TestParser2]
    [TestParser2] req11 req11 rfl rfl rfl

/-- C7: no fabrication of identifiers. Whenever the composed matcher
returns Ok s on a request, some constituent returns Ok s on that request;
the composer never constructs or alters an identifier. -/
theorem request_parser_joiner_no_fabrication (head : RequestParser)
    (tail : List RequestParser) (r : Request) (s : String)
    (hok : request_parser_joiner head tail r = Except.ok s) :
    ∃ m ∈ head :: tail, m r = Except.ok s := by
  have hok2 : firstSuccess (head :: tail) r = Except.ok s :=
    (impl_eq_firstSuccess r head tail).symm.trans hok
  exact firstSuccess_mem_of_ok (head :: tail) r s hok2

/-- C7 witness: the composed test parser returns Ok t11 on the request for
path /test/t11, and indeed one of its two constituents does so. -/
theorem request_parser_joiner_no_fabrication_witness :
    ∃ m ∈ [TestParser1, TestParser2], m req11 = Except.ok "t11" :=
  request_parser_joiner_no_fabrication TestParser1 [TestParser2] req11 "t11" rfl

/-- C8: totality. Evaluation of the composed matcher is total by
construction; the instrumented run returns the same result while invoking
at most n constituents (n the length of the constituent list), and the
only possible outcomes are Ok of some identifier or the unit no-match
error. -/
theorem request_parser_joiner_total_bounded (head : RequestParser)
    (tail : List RequestParser) (r : Request) :
    (joinerInstrumented r head tail).1 = request_parser_joiner head tail r ∧
      (joinerInstrumented r head tail).2 ≤ (head :: tail).length ∧
      ((∃ s, request_parser_joiner head tail r = Except.ok s) ∨
        request_parser_joiner head tail r = Except.error ()) := by
  refine ⟨joinerInstrumented_result r head tail,
    joinerInstrumented_count r head tail, ?hcase⟩
  cases hres : request_parser_joiner head tail r with
  | ok s => exact Or.inl ⟨s, rfl⟩
  | error e => exact Or.inr (by cases e; rfl)

/-- C9: the failure signal is a unit value. Both the constituents and the
composed matcher have result type Except Unit String, and any error the
composition returns is exactly the unit no-match error, regardless of
which constituents declined. -/
theorem request_parser_joiner_unit_error (head : RequestParser)
    (tail : List RequestParser) (r : Request) (e : Unit)
    (he : request_parser_joiner head tail r = Except.error e) :
    request_parser_joiner head tail r = Except.error () := by
  cases e; exact he

/-- C9 witness: the composed test parser fails on the request for path
/test/t33 and the failure is exactly the unit error. -/
theorem request_parser_joiner_unit_error_witness :
    request_parser_joiner TestParser1 [TestParser2] req33 = Except.error () :=
  request_parser_joiner_unit_error TestParser1 [TestParser2] req33 () rfl

/-- C10: identity of singleton composition. Composing a single matcher m
yields a matcher extensionally equal to m itself: on every request the
composed singleton returns exactly what m returns, on success and on
no-match alike. -/
theorem request_parser_joiner_singleton_identity (m : RequestParser)
    (r : Request) :
    request_parser_joiner m [] r = m r :=
  rfl
